import Mathlib

/-!
Shallow embedding of the `i5-req` crate: the Interface5 payload builder
(`src/types/i5_request.rs`), the endpoint URL builder
(`src/types/i5_request_url.rs`), the error type (`src/types/i5_error.rs`)
and the HTTP post request construction (`src/request/blocking.rs`,
`src/request/mod.rs`).

Rust `i32` values are modelled as `Int` (with explicit range hypotheses where
an `as usize` cast can wrap), `usize` as `Nat`, byte slices as `List Nat`
with a `< 256` bound, and the `HashSet<&i32>` used by `is_continuous` as the
deduplicated list of its elements (only its cardinality and maximum are
consumed, both order independent).
-/

namespace I5Req

/-- The value of `(m : i32) as usize` on a 64-bit target: sign extension
followed by reinterpretation, i.e. `m` modulo `2 ^ 64`. -/
def i32_as_usize (m : Int) : Nat :=
  (m % (2 : Int) ^ 64).toNat

/-- The distinct non-zero entries of `numbers`: the `HashSet<&i32>` built by
`is_continuous` from `numbers.iter().filter(|value| **value != 0)`. -/
def uniqueNonzero (numbers : List Int) : List Int :=
  (numbers.filter fun v => decide (v ≠ 0)).dedup

/-- `is_continuous` from `src/types/i5_request.rs`: build the set of distinct
non-zero entries; if it is empty return `true`, otherwise compare its maximum
(cast `as usize`) against its cardinality. -/
def is_continuous (numbers : List Int) : Bool :=
  match (uniqueNonzero numbers).max? with
  | none => true
  | some m => decide (i32_as_usize m ≤ (uniqueNonzero numbers).length)

/-- Modelled from the spec: the set-equality characterization of continuity
used in the spec's wording of the rule ("the set equal exactly
`{1, 2, ..., max}` with no gaps", empty set vacuously continuous). This is a
second definition following the spec's words, to be compared with
`is_continuous`, which is translated from the source. -/
def spec_continuous (numbers : List Int) : Bool :=
  match (uniqueNonzero numbers).max? with
  | none => true
  | some m => decide ((uniqueNonzero numbers).toFinset = Finset.Icc 1 m)

/-- The RFC 4648 standard base64 alphabet used by
`base64::engine::general_purpose::STANDARD`. -/
def b64Chars : List Char :=
  ['A','B','C','D','E','F','G','H','I','J','K','L','M',
   'N','O','P','Q','R','S','T','U','V','W','X','Y','Z',
   'a','b','c','d','e','f','g','h','i','j','k','l','m',
   'n','o','p','q','r','s','t','u','v','w','x','y','z',
   '0','1','2','3','4','5','6','7','8','9','+','/']

/-- The alphabet character for a sextet value below 64. -/
def b64Char (n : Nat) : Char := b64Chars.getD n '*'

/-- The sextet value of an alphabet character. -/
def b64Val (c : Char) : Nat := b64Chars.indexOf c

/-- RFC 4648 standard padded base64 encoding of a byte sequence
(`general_purpose::STANDARD.encode`). -/
def b64Encode : List Nat → List Char
  | b1 :: b2 :: b3 :: rest =>
      b64Char (b1 / 4) :: b64Char ((b1 % 4) * 16 + b2 / 16) ::
      b64Char ((b2 % 16) * 4 + b3 / 64) :: b64Char (b3 % 64) :: b64Encode rest
  | [b1, b2] => [b64Char (b1 / 4), b64Char ((b1 % 4) * 16 + b2 / 16),
                 b64Char ((b2 % 16) * 4), '=']
  | [b1] => [b64Char (b1 / 4), b64Char ((b1 % 4) * 16), '=', '=']
  | [] => []

/-- RFC 4648 standard padded base64 decoding (on well-formed input). -/
def b64Decode : List Char → List Nat
  | c1 :: c2 :: c3 :: c4 :: rest =>
      if c3 = '=' then
        [b64Val c1 * 4 + b64Val c2 / 16]
      else if c4 = '=' then
        [b64Val c1 * 4 + b64Val c2 / 16, (b64Val c2 % 16) * 16 + b64Val c3 / 4]
      else
        (b64Val c1 * 4 + b64Val c2 / 16) ::
        ((b64Val c2 % 16) * 16 + b64Val c3 / 4) ::
        ((b64Val c3 % 4) * 64 + b64Val c4) :: b64Decode rest
  | _ => []

/-- `Field` from `src/types/i5_request.rs`. -/
structure Field where
  name : String
  value : String
  item_number : Int
deriving DecidableEq

/-- `Field::new`. -/
def Field.new (name value : String) (item_number : Int) : Field :=
  ⟨name, value, item_number⟩

/-- `File` from `src/types/i5_request.rs`; `data_base64` holds the
base64-encoded content. -/
structure File where
  name : String
  key : Option String
  data_base64 : String
deriving DecidableEq

/-- `File::new`: key is always absent at construction. -/
def File.new (name : String) (data : String) : File :=
  ⟨name, none, data⟩

/-- `Document` from `src/types/i5_request.rs`. -/
structure Document where
  name : String
  fields : List Field
  files : List File
deriving DecidableEq

/-- `Document::new`. -/
def Document.new (document_name : String) : Document :=
  ⟨document_name, [], []⟩

/-- `Document::add_header_field`: appends a field with item number `0`. -/
def Document.add_header_field (d : Document) (name value : String) : Document :=
  { d with fields := d.fields ++ [Field.new name value 0] }

/-- `Document::add_item_field`. -/
def Document.add_item_field (d : Document) (name value : String)
    (item_number : Int) : Document :=
  { d with fields := d.fields ++ [Field.new name value item_number] }

/-- `Document::add_base64_file`. -/
def Document.add_base64_file (d : Document) (name : String)
    (base64 : String) : Document :=
  { d with files := d.files ++ [File.new name base64] }

/-- `Document::add_bytes_file`: encode the raw bytes with the standard
base64 engine, then append via `add_base64_file`. -/
def Document.add_bytes_file (d : Document) (name : String)
    (bytes : List Nat) : Document :=
  d.add_base64_file name (String.mk (b64Encode bytes))

/-- `I5Reqeust` (sic) from `src/types/i5_request.rs`. -/
structure I5Reqeust where
  name : String
  documents : List Document
deriving DecidableEq

/-- `I5Reqeust::new`. -/
def I5Reqeust.new (name : String) : I5Reqeust :=
  ⟨name, []⟩

/-- `I5Reqeust::add_document`: push an empty document, return the mutated
payload together with the returned index `documents.len() - 1`. -/
def I5Reqeust.add_document (p : I5Reqeust) (document_name : String) :
    I5Reqeust × Nat :=
  let p2 : I5Reqeust := ⟨p.name, p.documents ++ [Document.new document_name]⟩
  (p2, p2.documents.length - 1)

/-- `I5Reqeust::get_document`: bounds-checked lookup. -/
def I5Reqeust.get_document (p : I5Reqeust) (index : Nat) : Option Document :=
  p.documents.get? index

/-- `I5Reqeust::get_document_mut`: same bounds-checked lookup (the returned
mutable reference designates the same element). -/
def I5Reqeust.get_document_mut (p : I5Reqeust) (index : Nat) : Option Document :=
  p.documents.get? index

/-- `I5Reqeust::is_valid`: fail on an empty document list, then reject iff
some document has no fields, no files, and a non-continuous item-number
list. -/
def I5Reqeust.is_valid (p : I5Reqeust) : Bool :=
  if p.documents.isEmpty then false
  else p.documents.all fun document =>
    !(document.fields.isEmpty && document.files.isEmpty
      && !is_continuous (document.fields.map Field.item_number))

/-- `I5RequestError` from `src/types/i5_error.rs`; the payloads of
`SerializeError` and `RequestError` (external library error values) are
modelled by their display strings. -/
inductive I5RequestError where
  | ValidationError : I5RequestError
  | SerializeError : String → I5RequestError
  | RequestError : String → I5RequestError
deriving DecidableEq

/-- `ValidatedI5Request`: newtype wrapper produced only by `validate`. -/
structure ValidatedI5Request where
  payload : I5Reqeust
deriving DecidableEq

/-- `I5Reqeust::validate`. -/
def I5Reqeust.validate (p : I5Reqeust) :
    Except I5RequestError ValidatedI5Request :=
  if p.is_valid then .ok ⟨p⟩ else .error .ValidationError

/-- JSON values, with object members kept as an ordered association list to
mirror `serde_json` output (declaration order of struct fields). -/
inductive JsonValue where
  | str : String → JsonValue
  | num : Int → JsonValue
  | null : JsonValue
  | arr : List JsonValue → JsonValue
  | obj : List (String × JsonValue) → JsonValue

/-- The member keys of a JSON object (empty for non-objects). -/
def objKeys : JsonValue → List String
  | .obj members => members.map Prod.fst
  | _ => []

/-- One escaped character of a JSON string literal, as escaped by
`serde_json` (quote, backslash, and the control characters). -/
def jsonEscapeChar (c : Char) : List Char :=
  if c = '"' then ['\\', '"']
  else if c = '\\' then ['\\', '\\']
  else if c = Char.ofNat 8 then ['\\', 'b']
  else if c = Char.ofNat 9 then ['\\', 't']
  else if c = Char.ofNat 10 then ['\\', 'n']
  else if c = Char.ofNat 12 then ['\\', 'f']
  else if c = Char.ofNat 13 then ['\\', 'r']
  else if c.toNat < 32 then
    ['\\', 'u', '0', '0',
     (if c.toNat / 16 < 10 then Char.ofNat (48 + c.toNat / 16)
      else Char.ofNat (87 + c.toNat / 16)),
     (if c.toNat % 16 < 10 then Char.ofNat (48 + c.toNat % 16)
      else Char.ofNat (87 + c.toNat % 16))]
  else [c]

/-- A string rendered as a JSON string literal. -/
def jsonString (s : String) : String :=
  "\"" ++ String.mk (s.data.map jsonEscapeChar).flatten ++ "\""

mutual

/-- Compact rendering of a JSON value, as `serde_json::to_string` emits it. -/
def jsonRender : JsonValue → String
  | .str s => jsonString s
  | .num n => toString n
  | .null => "null"
  | .arr xs => "[" ++ jsonRenderArr xs ++ "]"
  | .obj members => "\x7b" ++ jsonRenderObj members ++ "\x7d"

/-- Comma-separated rendering of array elements. -/
def jsonRenderArr : List JsonValue → String
  | [] => ""
  | [x] => jsonRender x
  | x :: xs => jsonRender x ++ "," ++ jsonRenderArr xs

/-- Comma-separated rendering of object members. -/
def jsonRenderObj : List (String × JsonValue) → String
  | [] => ""
  | [(k, v)] => jsonString k ++ ":" ++ jsonRender v
  | (k, v) :: xs => jsonString k ++ ":" ++ jsonRender v ++ "," ++ jsonRenderObj xs

end

/-- Serialization of a `Field` under its `#[serde(rename)]` attributes, in
declaration order: `Name`, `Value`, `ItemNo`. -/
def Field.toJson (f : Field) : JsonValue :=
  .obj [("Name", .str f.name), ("Value", .str f.value),
        ("ItemNo", .num f.item_number)]

/-- Serialization of a `File`: `Name`, `Key`, `Data` in declaration order;
an absent key serializes to `null`. -/
def File.toJson (f : File) : JsonValue :=
  .obj [("Name", .str f.name),
        ("Key", match f.key with | none => .null | some k => .str k),
        ("Data", .str f.data_base64)]

/-- Serialization of a `Document`: `Name`, `Fields`, `Files` in declaration
order, the two sequences in insertion order. -/
def Document.toJson (d : Document) : JsonValue :=
  .obj [("Name", .str d.name),
        ("Fields", .arr (d.fields.map Field.toJson)),
        ("Files", .arr (d.files.map File.toJson))]

/-- Serialization of an `I5Reqeust`: `Name`, `Documents` in declaration
order, the documents in insertion order. -/
def I5Reqeust.toJson (p : I5Reqeust) : JsonValue :=
  .obj [("Name", .str p.name),
        ("Documents", .arr (p.documents.map Document.toJson))]

/-- `ValidatedI5Request::to_json_string`: `serde_json::to_string` on the
wrapped payload (total on this fixed shape, so the `SerializeError` branch
is unreachable and the string itself is returned). -/
def ValidatedI5Request.to_json_string (v : ValidatedI5Request) : String :=
  jsonRender v.payload.toJson

/-- `I5RequestUrl` from `src/types/i5_request_url.rs`. -/
structure I5RequestUrl where
  scenario : String
  tenant : String
  hostname : String
  port : Int
deriving DecidableEq

/-- `I5RequestUrl::new`. -/
def I5RequestUrl.new (hostname : String) (port : Int)
    (scenario tenant : String) : I5RequestUrl :=
  ⟨scenario, tenant, hostname, port⟩

/-- `I5RequestUrl::to_url`: the `format!` template
`https://{hostname}:{port}/api/v1/Input/{tenant}/{scenario}/Batches`. -/
def I5RequestUrl.to_url (u : I5RequestUrl) : String :=
  "https://" ++ u.hostname ++ ":" ++ toString u.port ++ "/api/v1/Input/"
    ++ u.tenant ++ "/" ++ u.scenario ++ "/Batches"

/-- The observable content of an HTTPS POST built by the transport layer:
target URL, header list, body. Connection handling, TLS trust and the
response are external effects outside the embedding. -/
structure HttpPostRequest where
  url : String
  headers : List (String × String)
  body : String
deriving DecidableEq

/-- `i5_http_post` from `src/request/blocking.rs`: serialize the validated
body, then POST it to `url.to_url()` with the single header the source
attaches (`allow_untrusted_cert` only configures TLS trust and does not
affect the request content). -/
def blocking_i5_http_post (valid_body : ValidatedI5Request)
    (url : I5RequestUrl) (_allow_untrusted_cert : Bool) : HttpPostRequest :=
  { url := url.to_url
    headers := [("Conten-Type", "application/json")]
    body := valid_body.to_json_string }

/-- `i5_http_post` from `src/request/mod.rs` (the async variant): same
request content, no TLS flag. -/
def async_i5_http_post (valid_body : ValidatedI5Request)
    (url : I5RequestUrl) : HttpPostRequest :=
  { url := url.to_url
    headers := [("Conten-Type", "application/json")]
    body := valid_body.to_json_string }

/-! ### Helper lemmas -/

/-- Decoding inverts encoding on each alphabet position, and no alphabet
character is the padding character, checked over all 64 sextet values. -/
theorem b64Val_b64Char_fin :
    ∀ n : Fin 64, b64Val (b64Char n.val) = n.val ∧ b64Char n.val ≠ '=' := by
  decide

/-- `Nat`-indexed form of `b64Val_b64Char_fin`. -/
theorem b64Val_b64Char (n : Nat) (h : n < 64) :
    b64Val (b64Char n) = n ∧ b64Char n ≠ '=' :=
  b64Val_b64Char_fin ⟨n, h⟩

/-- RFC 4648 round trip: decoding the standard padded encoding of any byte
sequence returns that sequence. -/
theorem b64_roundtrip : ∀ bs : List Nat, (∀ b ∈ bs, b < 256) →
    b64Decode (b64Encode bs) = bs
  | [], _ => rfl
  | [b1], h => by
      have h1 : b1 < 256 := h b1 (by simp)
      have e1 := b64Val_b64Char (b1 / 4) (by omega)
      have e2 := b64Val_b64Char ((b1 % 4) * 16) (by omega)
      simp [b64Encode, b64Decode, e1.1, e2.1]
      omega
  | [b1, b2], h => by
      have h1 : b1 < 256 := h b1 (by simp)
      have h2 : b2 < 256 := h b2 (by simp)
      have e1 := b64Val_b64Char (b1 / 4) (by omega)
      have e2 := b64Val_b64Char ((b1 % 4) * 16 + b2 / 16) (by omega)
      have e3 := b64Val_b64Char ((b2 % 16) * 4) (by omega)
      simp [b64Encode, b64Decode, e1.1, e2.1, e3.1, e3.2]
      omega
  | b1 :: b2 :: b3 :: rest, h => by
      have h1 : b1 < 256 := h b1 (by simp)
      have h2 : b2 < 256 := h b2 (by simp)
      have h3 : b3 < 256 := h b3 (by simp)
      have e1 := b64Val_b64Char (b1 / 4) (by omega)
      have e2 := b64Val_b64Char ((b1 % 4) * 16 + b2 / 16) (by omega)
      have e3 := b64Val_b64Char ((b2 % 16) * 4 + b3 / 64) (by omega)
      have e4 := b64Val_b64Char (b3 % 64) (by omega)
      have ih := b64_roundtrip rest (fun b hb => h b (by simp [hb]))
      simp [b64Encode, b64Decode, e1.1, e2.1, e3.1, e3.2, e4.1, e4.2, ih]
      omega

/-- The continuity check accepts the empty item-number list. -/
theorem is_continuous_nil : is_continuous [] = true := rfl

/-- Any payload with a non-empty document list is accepted by `is_valid`:
the per-document rejection condition requires an empty field list, whose
item-number list is empty and therefore continuous. -/
theorem is_valid_of_ne_nil (p : I5Reqeust) (h : p.documents ≠ []) :
    p.is_valid = true := by
  unfold I5Reqeust.is_valid
  rw [if_neg (by simpa using h)]
  refine List.all_eq_true.mpr fun d hd => ?_
  cases hf : d.fields with
  | nil => simp [hf, is_continuous_nil]
  | cons a l => simp [hf]

/-- The maximum returned by `List.max?` on an integer list is a member and
an upper bound. -/
theorem max?_spec {l : List Int} {m : Int} (h : l.max? = some m) :
    m ∈ l ∧ ∀ x ∈ l, x ≤ m := by
  have inst : Std.Antisymm (α := Int) (· ≤ ·) := ⟨fun h1 h2 => le_antisymm h1 h2⟩
  rw [List.max?_eq_some_iff] at h
  · exact h
  all_goals simp [le_total]

/-- Membership in the distinct non-zero entries. -/
theorem mem_uniqueNonzero {l : List Int} {x : Int} :
    x ∈ uniqueNonzero l ↔ x ∈ l ∧ x ≠ 0 := by
  simp [uniqueNonzero]

/-! ### Claim theorems -/

/-- C1 (counterexample): on the list `[-1, 2]` the implemented continuity
test accepts (the maximum `2` equals the count `2` of distinct non-zero
entries) while the spec's set-equality characterization rejects (the set
`{-1, 2}` is not `{1, 2}`), so the claimed equivalence over every input
list, including lists with negative item numbers, is false. -/
theorem is_continuous_spec_mismatch_neg :
    is_continuous [-1, 2] = true ∧ spec_continuous [-1, 2] = false := by
  decide

/-- C1 (amended): restricted to lists whose entries are non-negative (the
`i32` range), the implemented test "maximum ≤ count of distinct non-zero
entries" agrees with the set-equality characterization "empty, or exactly
`{1, ..., max}`"; with negative entries present the two can disagree. -/
theorem is_continuous_eq_spec_of_nonneg (l : List Int)
    (hpos : ∀ x ∈ l, 0 ≤ x) (hbound : ∀ x ∈ l, x < 2 ^ 31) :
    is_continuous l = spec_continuous l := by
  unfold is_continuous spec_continuous
  cases hm : (uniqueNonzero l).max? with
  | none => rfl
  | some m =>
    have hmem : ∀ x ∈ uniqueNonzero l, 1 ≤ x ∧ x < 2 ^ 31 := by
      intro x hx
      have hx2 : x ∈ l ∧ x ≠ 0 := mem_uniqueNonzero.mp hx
      exact ⟨by have := hpos x hx2.1; have := hx2.2; omega, hbound x hx2.1⟩
    have hmax := max?_spec hm
    have hnodup : (uniqueNonzero l).Nodup := List.nodup_dedup _
    have hm1 : 1 ≤ m := (hmem m hmax.1).1
    have hcast : i32_as_usize m = m.toNat := by
      unfold i32_as_usize
      rw [Int.emod_eq_of_lt (by omega) (by have := (hmem m hmax.1).2; omega)]
    have hcardIcc : (Finset.Icc (1 : Int) m).card = m.toNat := by
      rw [Int.card_Icc]; omega
    have hcardS : (uniqueNonzero l).toFinset.card = (uniqueNonzero l).length :=
      List.toFinset_card_of_nodup hnodup
    have hsub : (uniqueNonzero l).toFinset ⊆ Finset.Icc 1 m := by
      intro x hx
      rw [List.mem_toFinset] at hx
      exact Finset.mem_Icc.mpr ⟨(hmem x hx).1, hmax.2 x hx⟩
    show decide (i32_as_usize m ≤ (uniqueNonzero l).length)
        = decide ((uniqueNonzero l).toFinset = Finset.Icc 1 m)
    rw [hcast]
    apply decide_eq_decide.mpr
    constructor
    · intro hle
      exact Finset.eq_of_subset_of_card_le hsub (by rw [hcardIcc, hcardS]; exact hle)
    · intro heq
      have hc := congrArg Finset.card heq
      rw [hcardS, hcardIcc] at hc
      omega

/-- C1 (witness): the amended equivalence applied at the concrete list
`[1, 2]`. -/
theorem is_continuous_eq_spec_of_nonneg_witness :
    is_continuous [1, 2] = spec_continuous [1, 2] :=
  is_continuous_eq_spec_of_nonneg [1, 2] (by decide) (by decide)

/-- C2: `is_valid` fails on an empty document list; with at least one
document, a document holding a field or a file is always accepted whatever
its item numbers, and a document with neither is rejected only when its
item-number list fails the continuity check; in particular a payload whose
single document holds exactly one header field and no files is valid. -/
theorem is_valid_document_rule :
    (∀ p : I5Reqeust, p.documents = [] → p.is_valid = false)
    ∧ (∀ p : I5Reqeust, p.documents ≠ [] →
        (∀ d ∈ p.documents, d.fields ≠ [] ∨ d.files ≠ []) → p.is_valid = true)
    ∧ (∀ p : I5Reqeust, p.documents ≠ [] → p.is_valid = false →
        ∃ d ∈ p.documents, d.fields = [] ∧ d.files = []
          ∧ is_continuous (d.fields.map Field.item_number) = false)
    ∧ (∀ pname dname fname fvalue : String,
        (I5Reqeust.mk pname
          [Document.mk dname [Field.new fname fvalue 0] []]).is_valid = true) := by
  refine ⟨?_, ?_, ?_, ?_⟩
  · intro p h
    simp [I5Reqeust.is_valid, h]
  · intro p h _
    exact is_valid_of_ne_nil p h
  · intro p h hfalse
    exact absurd (is_valid_of_ne_nil p h) (by simp [hfalse])
  · intro pname dname fname fvalue
    exact is_valid_of_ne_nil _ (by simp)

/-- C2 (witness): the pieces of `is_valid_document_rule` applied at
concrete payloads. -/
theorem is_valid_document_rule_witness :
    (I5Reqeust.mk "P" []).is_valid = false
    ∧ (I5Reqeust.mk "P"
        [Document.mk "D" [Field.new "f" "v" 0] []]).is_valid = true :=
  ⟨is_valid_document_rule.1 (I5Reqeust.mk "P" []) rfl,
   is_valid_document_rule.2.1 (I5Reqeust.mk "P"
      [Document.mk "D" [Field.new "f" "v" 0] []]) (by simp)
      (by simp [Field.new])⟩

/-- C3: a payload with exactly one document holding zero fields and zero
files validates: the empty item-number list is continuous, so `is_valid`
holds and `validate` returns the wrapped payload. -/
theorem empty_document_payload_validates (pname dname : String) :
    is_continuous [] = true
    ∧ (I5Reqeust.mk pname [Document.mk dname [] []]).is_valid = true
    ∧ (I5Reqeust.mk pname [Document.mk dname [] []]).validate
        = .ok ⟨I5Reqeust.mk pname [Document.mk dname [] []]⟩ := by
  have hv : (I5Reqeust.mk pname [Document.mk dname [] []]).is_valid = true :=
    is_valid_of_ne_nil _ (by simp)
  exact ⟨rfl, hv, by simp [I5Reqeust.validate, hv]⟩

/-- C4: `validate` returns the wrapped payload exactly when `is_valid`
holds, returns the bare `ValidationError` exactly when it does not, and
these are the only outcomes. -/
theorem validate_dichotomy (p : I5Reqeust) :
    (p.validate = .ok ⟨p⟩ ↔ p.is_valid = true)
    ∧ (p.validate = .error .ValidationError ↔ p.is_valid = false)
    ∧ (p.validate = .ok ⟨p⟩ ∨ p.validate = .error .ValidationError) := by
  cases h : p.is_valid <;> simp [I5Reqeust.validate, h]

/-- C5: the URL is the template
`https://{hostname}:{port}/api/v1/Input/{tenant}/{scenario}/Batches`, the
tenant before the scenario, with the claimed concrete instance. -/
theorem to_url_format (hostname : String) (port : Int) (scenario tenant : String) :
    (I5RequestUrl.new hostname port scenario tenant).to_url
      = "https://" ++ hostname ++ ":" ++ toString port ++ "/api/v1/Input/"
          ++ tenant ++ "/" ++ scenario ++ "/Batches"
    ∧ (I5RequestUrl.new "localhost" 43001 "Processor" "Default").to_url
      = "https://localhost:43001/api/v1/Input/Default/Processor/Batches" :=
  ⟨rfl, by decide⟩

/-- C6: adding a file from raw bytes appends a file whose data field is the
standard padded base64 encoding of the bytes, and decoding that stored
data field returns exactly the original bytes. -/
theorem add_bytes_file_roundtrip (d : Document) (name : String)
    (bytes : List Nat) (h : ∀ b ∈ bytes, b < 256) :
    (d.add_bytes_file name bytes).files
      = d.files ++ [File.mk name none (String.mk (b64Encode bytes))]
    ∧ b64Decode (String.mk (b64Encode bytes)).data = bytes :=
  ⟨rfl, b64_roundtrip bytes h⟩

/-- C6 (witness): the round trip at the concrete byte sequence
`[77, 97, 110]` (whose encoding is `TWFu`). -/
theorem add_bytes_file_roundtrip_witness :
    ((Document.new "D").add_bytes_file "f" [77, 97, 110]).files
      = (Document.new "D").files
          ++ [File.mk "f" none (String.mk (b64Encode [77, 97, 110]))]
    ∧ b64Decode (String.mk (b64Encode [77, 97, 110])).data = [77, 97, 110] :=
  add_bytes_file_roundtrip (Document.new "D") "f" [77, 97, 110] (by decide)

/-- C7 (code bug): both transport functions attach exactly one header, and
its name is the misspelled `Conten-Type` — not the `Content-Type` the spec
states — alongside the serialized payload as body. -/
theorem http_post_header_typo (v : ValidatedI5Request) (u : I5RequestUrl)
    (flag : Bool) :
    (blocking_i5_http_post v u flag).headers
      = [("Conten-Type", "application/json")]
    ∧ (async_i5_http_post v u).headers = [("Conten-Type", "application/json")]
    ∧ (blocking_i5_http_post v u flag).url = u.to_url
    ∧ (async_i5_http_post v u).url = u.to_url
    ∧ (blocking_i5_http_post v u flag).body = v.to_json_string
    ∧ (async_i5_http_post v u).body = v.to_json_string
    ∧ "Conten-Type" ≠ "Content-Type" :=
  ⟨rfl, rfl, rfl, rfl, rfl, rfl, by decide⟩

/-- C8: serialization uses exactly the fixed case-sensitive key lists
`Name`/`Documents`, `Name`/`Fields`/`Files`, `Name`/`Value`/`ItemNo` and
`Name`/`Key`/`Data`, and renders documents, fields and files in insertion
order. -/
theorem to_json_keys_and_order (v : ValidatedI5Request) :
    v.payload.toJson
      = .obj [("Name", .str v.payload.name),
              ("Documents", .arr (v.payload.documents.map Document.toJson))]
    ∧ objKeys v.payload.toJson = ["Name", "Documents"]
    ∧ (∀ d ∈ v.payload.documents,
        d.toJson = .obj [("Name", .str d.name),
                         ("Fields", .arr (d.fields.map Field.toJson)),
                         ("Files", .arr (d.files.map File.toJson))]
          ∧ objKeys d.toJson = ["Name", "Fields", "Files"])
    ∧ (∀ d ∈ v.payload.documents, ∀ f ∈ d.fields,
        objKeys f.toJson = ["Name", "Value", "ItemNo"])
    ∧ (∀ d ∈ v.payload.documents, ∀ f ∈ d.files,
        objKeys f.toJson = ["Name", "Key", "Data"])
    ∧ v.to_json_string = jsonRender v.payload.toJson :=
  ⟨rfl, rfl, fun _ _ => ⟨rfl, rfl⟩, fun _ _ _ _ => rfl, fun _ _ _ _ => rfl, rfl⟩

/-- C8 (witness): the key lists at a concrete validated payload holding one
document with one field and one file. -/
theorem to_json_keys_and_order_witness :
    objKeys (Document.mk "D" [Field.mk "f" "v" 0]
        [File.mk "g" none "QQ=="]).toJson = ["Name", "Fields", "Files"]
    ∧ objKeys (Field.mk "f" "v" 0).toJson = ["Name", "Value", "ItemNo"]
    ∧ objKeys (File.mk "g" none "QQ==").toJson = ["Name", "Key", "Data"] :=
  ⟨((to_json_keys_and_order ⟨I5Reqeust.mk "P"
      [Document.mk "D" [Field.mk "f" "v" 0] [File.mk "g" none "QQ=="]]⟩).2.2.1
      (Document.mk "D" [Field.mk "f" "v" 0] [File.mk "g" none "QQ=="])
      (by simp)).2,
   (to_json_keys_and_order ⟨I5Reqeust.mk "P"
      [Document.mk "D" [Field.mk "f" "v" 0] [File.mk "g" none "QQ=="]]⟩).2.2.2.1
      (Document.mk "D" [Field.mk "f" "v" 0] [File.mk "g" none "QQ=="])
      (by simp) (Field.mk "f" "v" 0) (by simp),
   (to_json_keys_and_order ⟨I5Reqeust.mk "P"
      [Document.mk "D" [Field.mk "f" "v" 0] [File.mk "g" none "QQ=="]]⟩).2.2.2.2.1
      (Document.mk "D" [Field.mk "f" "v" 0] [File.mk "g" none "QQ=="])
      (by simp) (File.mk "g" none "QQ==") (by simp)⟩

/-- C9: `add_document` appends an empty document and returns the count of
documents before the call as its zero-based index; lookups at that index
return the new document, out-of-range lookups return `none` rather than
failing, in-range lookups return the stored document, and an existing index
still resolves to the same document after further appends. -/
theorem add_get_document_spec (p : I5Reqeust) (n m : String) :
    (p.add_document n).2 = p.documents.length
    ∧ (p.add_document n).1.get_document (p.add_document n).2
        = some (Document.new n)
    ∧ (p.add_document n).1.get_document_mut (p.add_document n).2
        = some (Document.new n)
    ∧ (∀ i, p.documents.length ≤ i →
        p.get_document i = none ∧ p.get_document_mut i = none)
    ∧ (∀ i, (h : i < p.documents.length) →
        p.get_document i = some p.documents[i]
          ∧ p.get_document_mut i = some p.documents[i])
    ∧ (∀ i, i < (p.add_document n).1.documents.length →
        ((p.add_document n).1.add_document m).1.get_document i
          = (p.add_document n).1.get_document i) := by
  refine ⟨by simp [I5Reqeust.add_document], ?_, ?_, ?_, ?_, ?_⟩
  · simp [I5Reqeust.add_document, I5Reqeust.get_document]
  · simp [I5Reqeust.add_document, I5Reqeust.get_document_mut]
  · intro i h
    constructor <;>
      simpa [I5Reqeust.get_document, I5Reqeust.get_document_mut] using
        List.get?_eq_none.mpr h
  · intro i h
    constructor <;>
      simp [I5Reqeust.get_document, I5Reqeust.get_document_mut,
        List.get?_eq_get h]
  · intro i h
    simp only [I5Reqeust.add_document, I5Reqeust.get_document,
      List.get?_eq_getElem?]
    exact List.getElem?_append_left (by simpa [I5Reqeust.add_document] using h)

/-- C9 (witness): the lookup behavior applied at a concrete one-document
payload and the out-of-range index `3`. -/
theorem add_get_document_spec_witness :
    ((I5Reqeust.mk "P" [Document.mk "D" [] []]).get_document 3 = none
      ∧ (I5Reqeust.mk "P" [Document.mk "D" [] []]).get_document_mut 3 = none)
    ∧ ((I5Reqeust.mk "P" [Document.mk "D" [] []]).add_document "E").2 = 1 :=
  ⟨(add_get_document_spec (I5Reqeust.mk "P" [Document.mk "D" [] []])
      "E" "F").2.2.2.1 3 (by decide),
   (add_get_document_spec (I5Reqeust.mk "P" [Document.mk "D" [] []])
      "E" "F").1⟩

/-- C10: validation reduces to non-emptiness of the document list — every
payload with at least one document is valid (no document content causes
rejection) and `validate` succeeds on it. -/
theorem is_valid_iff_documents_nonempty :
    (∀ p : I5Reqeust, p.is_valid = true ↔ p.documents ≠ [])
    ∧ (∀ p : I5Reqeust, p.documents ≠ [] → p.validate = .ok ⟨p⟩) := by
  constructor
  · intro p
    constructor
    · intro hv hnil
      rw [I5Reqeust.is_valid] at hv
      simp [hnil] at hv
    · exact is_valid_of_ne_nil p
  · intro p h
    simp [I5Reqeust.validate, is_valid_of_ne_nil p h]

/-- C10 (witness): `validate` succeeds on a concrete payload whose single
document holds no fields and no files. -/
theorem is_valid_iff_documents_nonempty_witness :
    (I5Reqeust.mk "P" [Document.mk "D" [] []]).validate
      = .ok ⟨I5Reqeust.mk "P" [Document.mk "D" [] []]⟩ :=
  is_valid_iff_documents_nonempty.2 (I5Reqeust.mk "P" [Document.mk "D" [] []])
    (by simp)

end I5Req
